import Mathlib

/-!
Shallow embedding of `src/server.py` (a WebSocket relay server that forwards
gamepad input to the Dolphin emulator and manages its lifecycle), together
with theorems settling the specification claims about it.

Conventions of the embedding:
* Python dicts with string keys are association lists `List (String × α)`
  whose keys are unique (the dict invariant); dict assignment and deletion
  are modelled by `dictInsert` and the deletion in `deregister`.
* JSON values are the inductive `JValue`; a message that fails
  `json.loads` is represented by `none : Option JValue`.
* Python exceptions relevant to the control flow are the inductive `PyExc`;
  functions that may raise return the raised exception alongside the
  effects performed before the raise.
* I/O effects (websocket sends, process launches, log lines) are recorded
  in a `List Effect`; the outside world (is a process alive, does the
  process-table scan succeed, does a send to a given channel succeed,
  does the launch succeed) is an `Env` record.
* Channels (websockets) and process handles are opaque `Nat` tokens.
-/

namespace GCServer

/-- A JSON value, as produced by `json.loads`. -/
inductive JValue where
  | jnull
  | jbool (b : Bool)
  | jnum (n : Int)
  | jstr (s : String)
  | jarr (elems : List JValue)
  | jobj (fields : List (String × JValue))

/-- Python `v == "lit"` for a string literal: true iff `v` is that string. -/
def isStr : JValue → String → Bool
  | .jstr s, t => s = t
  | _, _ => false

/-- Key lookup in an association list modelling a Python dict. -/
def lookupKey (m : List (String × α)) (k : String) : Option α :=
  match m with
  | [] => none
  | p :: rest => if p.1 = k then some p.2 else lookupKey rest k

/-- Whether a dict has a key (`k in d` for a dict `d`). -/
def hasKeyB (m : List (String × α)) (k : String) : Bool :=
  m.any (fun p => p.1 = k)

/-- Python dict assignment `d[k] = v`: overwrite in place if the key exists,
append otherwise. -/
def dictInsert (m : List (String × α)) (k : String) (v : α) : List (String × α) :=
  if hasKeyB m k then m.map (fun p => if p.1 = k then (p.1, v) else p)
  else m ++ [(k, v)]

/-- `MAX_CLIENTS` from src/server.py line 23. -/
def MAX_CLIENTS : Nat := 4

/-- `INPUT_MAP` from src/server.py lines 32-51, in source order. -/
def INPUT_MAP : List (String × String) :=
  [("A", "a"), ("B", "b"), ("X", "x"), ("Y", "y"), ("Z", "z"),
   ("START", "start"),
   ("DPAD_UP", "dpad_up"), ("DPAD_DOWN", "dpad_down"),
   ("DPAD_LEFT", "dpad_left"), ("DPAD_RIGHT", "dpad_right"),
   ("L", "l"), ("R", "r"), ("ZL", "zl"), ("ZR", "zr"),
   ("ANALOG_LEFT_X", "left_x"), ("ANALOG_LEFT_Y", "left_y"),
   ("ANALOG_RIGHT_X", "right_x"), ("ANALOG_RIGHT_Y", "right_y")]

/-- The input remapping loop of `handle_client`, src/server.py lines 164-167:
`for key, value in data['input'].items(): if key in INPUT_MAP:
remapped_data[INPUT_MAP[key]] = value`. -/
def translate (input : List (String × JValue)) : List (String × JValue) :=
  input.foldl
    (fun acc p =>
      match lookupKey INPUT_MAP p.1 with
      | some t => dictInsert acc t p.2
      | none => acc)
    []

/-- The session registry `connected_clients` (src/server.py line 29): a dict
from client id (a uuid string) to the client's websocket channel. -/
abbrev Registry := List (String × Nat)

/-- Registration, src/server.py lines 145-152: reject when
`len(connected_clients) >= MAX_CLIENTS`, otherwise store the fresh id.
Returns the new registry and whether the attempt was accepted. -/
def register (reg : Registry) (freshId : String) (ch : Nat) : Registry × Bool :=
  if MAX_CLIENTS ≤ reg.length then (reg, false)
  else (dictInsert reg freshId ch, true)

/-- Deregistration, src/server.py lines 186-187:
`if client_id in connected_clients: del connected_clients[client_id]`.
Dict keys are unique, so deleting the key removes exactly the entries
carrying it. -/
def deregister (reg : Registry) (id : String) : Registry :=
  if hasKeyB reg id then reg.filter (fun p => ¬ p.1 = id) else reg

/-- One registry operation performed by some connection handler. -/
inductive RegOp where
  | reg (id : String) (ch : Nat)
  | dereg (id : String)

/-- Apply one registry operation. -/
def applyOp (r : Registry) : RegOp → Registry
  | .reg id ch => (register r id ch).1
  | .dereg id => deregister r id

/-- Apply a sequence of registry operations. -/
def applyOps (r : Registry) : List RegOp → Registry
  | [] => r
  | op :: rest => applyOps (applyOp r op) rest

/-! ### Process controller and connection manager -/

/-- Python exceptions that matter for the server's control flow. -/
inductive PyExc where
  | jsonDecode
  | keyError (k : String)
  | typeError
  | attributeError
  | connectionClosed

/-- Observable I/O effects, recorded in the order they occur. -/
inductive Effect where
  /-- A successful `await channel.send(json.dumps msg)`. -/
  | sent (ch : Nat) (msg : JValue)
  /-- `send_command_to_dolphin(client_id, remapped_data)` (errors inside it
  are swallowed by its own `except Exception`, lines 136-137). -/
  | sendDolphin (clientId : String) (frame : List (String × JValue))
  /-- `subprocess.Popen([DOLPHIN_PATH], ...)` succeeded, yielding a handle. -/
  | launched (h : Nat)
  /-- `dolphin_process.terminate(); dolphin_process.wait()` completed. -/
  | terminated (h : Nat)
  /-- `await websocket.close()`. -/
  | closed (ch : Nat)
  /-- A `log(...)` line. -/
  | logInfo (s : String)
  /-- An `error(...)` line. -/
  | logError (s : String)

/-- Outcome of `subprocess.Popen([DOLPHIN_PATH], ...)` in `start_dolphin`. -/
inductive LaunchOutcome where
  /-- Launch succeeded, yielding a process handle. -/
  | ok (h : Nat)
  /-- `FileNotFoundError`: the executable is missing. -/
  | fileNotFound
  /-- Any other launch exception, with its message. -/
  | otherError (msg : String)

/-- The outside world as seen by one call into the server code. -/
structure Env where
  /-- `dolphin_process.poll() is None`: the held process is still alive. -/
  pollAlive : Bool
  /-- Outcome of the platform process-table scan (lines 77-87):
  `.error ()` when `tasklist`/`pgrep` raises, `.ok b` when it reports
  whether a Dolphin process exists. -/
  scan : Except Unit Bool
  /-- Outcome of `subprocess.Popen([DOLPHIN_PATH], ...)`. -/
  launch : LaunchOutcome
  /-- Whether terminate/wait in `stop_dolphin` raises (lines 230-231). -/
  stopFails : Bool
  /-- Whether `await ch.send(...)` succeeds on a given channel; a failing
  send raises (modelled as `connectionClosed`). -/
  sendOk : Nat → Bool

/-- The module-level mutable state of server.py (lines 29-30). -/
structure ServerState where
  dolphin_process : Option Nat
  connected_clients : Registry

/-- `is_dolphin_running()`, src/server.py lines 67-87. Returns the boolean
result, the new value of the global `dolphin_process`, and log effects. -/
def is_dolphin_running (dp : Option Nat) (env : Env) :
    Bool × Option Nat × List Effect :=
  match dp with
  | some p => if env.pollAlive then (true, some p, []) else (false, none, [])
  | none =>
    match env.scan with
    | .ok b => (b, none, [])
    | .error _ => (false, none, [.logError "Error checking for Dolphin process"])

/-- The broadcast loops `for client in connected_clients.values():
await client.send(json.dumps(msg))` (src/server.py lines 213-214, 217-218,
236-237). Sends proceed in dict (registration) order; a failing send raises,
aborting the loop. Returns the effects performed and the escaped exception,
if any. -/
def broadcastTo (clients : Registry) (env : Env) (msg : JValue) :
    List Effect × Option PyExc :=
  match clients with
  | [] => ([], none)
  | p :: rest =>
    if env.sendOk p.2 then
      let r := broadcastTo rest env msg
      (.sent p.2 msg :: r.1, r.2)
    else ([], some .connectionClosed)

/-- The broadcast message of src/server.py line 214. -/
def notFoundMsg : JValue := .jobj [("error", .jstr "Dolphin executable not found")]

/-- The broadcast message of src/server.py line 218. -/
def startFailMsg (msg : String) : JValue :=
  .jobj [("error", .jstr ("Failed to start Dolphin: " ++ msg))]

/-- The broadcast message of src/server.py line 237. -/
def stopFailMsg : JValue := .jobj [("error", .jstr "Failed to stop Dolphin")]

/-- `start_dolphin()`, src/server.py lines 189-218. Returns the new state,
the effects performed, and the exception escaping the call, if any (a send
failing inside the `except` broadcast loops escapes uncaught). -/
def start_dolphin (st : ServerState) (env : Env) :
    ServerState × List Effect × Option PyExc :=
  let q := is_dolphin_running st.dolphin_process env
  if q.1 then
    ({ st with dolphin_process := q.2.1 },
     q.2.2 ++ [.logInfo "Dolphin is already running."], none)
  else
    match env.launch with
    | .ok h =>
      ({ st with dolphin_process := some h },
       q.2.2 ++ [.logInfo "Starting Dolphin from: DOLPHIN_PATH", .launched h,
                 .logInfo "Dolphin started."],
       none)
    | .fileNotFound =>
      -- `except FileNotFoundError:` (lines 211-214). `Popen` raised before
      -- the assignment, so `dolphin_process` keeps the value left by
      -- `is_dolphin_running`; the error is broadcast to every client.
      let b := broadcastTo st.connected_clients env notFoundMsg
      ({ st with dolphin_process := q.2.1 },
       q.2.2 ++ [.logInfo "Starting Dolphin from: DOLPHIN_PATH",
                 .logError "Dolphin executable not found at: DOLPHIN_PATH"] ++ b.1,
       b.2)
    | .otherError msg =>
      -- `except Exception as e:` (lines 215-218).
      let b := broadcastTo st.connected_clients env (startFailMsg msg)
      ({ st with dolphin_process := q.2.1 },
       q.2.2 ++ [.logInfo "Starting Dolphin from: DOLPHIN_PATH",
                 .logError ("Error starting Dolphin: " ++ msg)] ++ b.1,
       b.2)

/-- `stop_dolphin()`, src/server.py lines 220-239. The `finally` at line
238-239 sets `dolphin_process = None` on every path through the `try`. -/
def stop_dolphin (st : ServerState) (env : Env) :
    ServerState × List Effect × Option PyExc :=
  let q := is_dolphin_running st.dolphin_process env
  if ¬ q.1 then
    ({ st with dolphin_process := q.2.1 },
     q.2.2 ++ [.logInfo "Dolphin is not running."], none)
  else
    match q.2.1 with
    | some p =>
      if env.stopFails then
        let b := broadcastTo st.connected_clients env stopFailMsg
        ({ st with dolphin_process := none },
         q.2.2 ++ [.logInfo "Stopping Dolphin.", .logError "Error stopping Dolphin"]
           ++ b.1,
         b.2)
      else
        ({ st with dolphin_process := none },
         q.2.2 ++ [.logInfo "Stopping Dolphin.", .terminated p,
                   .logInfo "Dolphin stopped."],
         none)
    | none =>
      -- Running was detected by the platform scan; `if dolphin_process:` is
      -- false, so terminate/wait are skipped.
      ({ st with dolphin_process := none },
       q.2.2 ++ [.logInfo "Stopping Dolphin.", .logInfo "Dolphin stopped."], none)

/-- Whether `pre` is a prefix of `l` (by character equality). -/
def listPrefixOf : List Char → List Char → Bool
  | [], _ => true
  | _ :: _, [] => false
  | a :: as, b :: bs => a = b && listPrefixOf as bs

/-- Whether `needle` occurs contiguously inside the list. -/
def listSubstr (needle : List Char) : List Char → Bool
  | [] => listPrefixOf needle []
  | c :: rest => listPrefixOf needle (c :: rest) || listSubstr needle rest

/-- Python `k in data`: key membership for a dict, element membership for a
list, substring test for a string, `TypeError` for the other JSON values. -/
def pyContains (data : JValue) (k : String) : Except PyExc Bool :=
  match data with
  | .jobj fields => .ok (hasKeyB fields k)
  | .jarr elems => .ok (elems.any (fun v => isStr v k))
  | .jstr s => .ok (listSubstr k.toList s.toList)
  | _ => .error .typeError

/-- Python `data[k]` for a string subscript: dict lookup (raising `KeyError`
when the key is missing), `TypeError` for every other JSON value. -/
def pyGetItem (data : JValue) (k : String) : Except PyExc JValue :=
  match data with
  | .jobj fields =>
    match lookupKey fields k with
    | some v => .ok v
    | none => .error (.keyError k)
  | _ => .error .typeError

/-- Python `x.items()`: succeeds on a dict, raises `AttributeError`
otherwise. -/
def pyItems (data : JValue) : Except PyExc (List (String × JValue)) :=
  match data with
  | .jobj fields => .ok fields
  | _ => .error .attributeError

/-- The `elif "command" in data:` branch of `handle_client`,
src/server.py lines 170-177. -/
def dispatchCommand (data : JValue) (ws : Nat) (st : ServerState) (env : Env) :
    ServerState × List Effect × Option PyExc :=
  match pyContains data "command" with
  | .error e => (st, [], some e)
  | .ok hascmd =>
    if hascmd then
      match pyGetItem data "command" with
      | .error e => (st, [], some e)
      | .ok cv =>
        if isStr cv "start_dolphin" then start_dolphin st env
        else if isStr cv "stop_dolphin" then stop_dolphin st env
        else if isStr cv "status" then
          -- lines 175-177: reply goes to the requesting websocket only.
          let q := is_dolphin_running st.dolphin_process env
          let st' := { st with dolphin_process := q.2.1 }
          let reply : JValue :=
            .jobj [("status", .jstr (if q.1 then "Running" else "Stopped"))]
          if env.sendOk ws then (st', q.2.2 ++ [.sent ws reply], none)
          else (st', q.2.2, some .connectionClosed)
        else (st, [], none)
    else (st, [], none)

/-- The body of the message loop for one decoded message,
src/server.py lines 162-177 (before the `except` clauses at 178-181). -/
def dispatch (data : JValue) (clientId : String) (ws : Nat)
    (st : ServerState) (env : Env) : ServerState × List Effect × Option PyExc :=
  match pyContains data "type" with
  | .error e => (st, [], some e)
  | .ok hastype =>
    if hastype then
      match pyGetItem data "type" with
      | .error e => (st, [], some e)
      | .ok tv =>
        if isStr tv "controller_input" then
          match pyGetItem data "input" with
          | .error e => (st, [], some e)
          | .ok inp =>
            match pyItems inp with
            | .error e => (st, [], some e)
            | .ok pairs => (st, [.sendDolphin clientId (translate pairs)], none)
        else dispatchCommand data ws st env
    else dispatchCommand data ws st env

/-- Result of processing one inbound message. -/
inductive StepRes where
  /-- The loop continues with the next message. -/
  | cont
  /-- An exception escaped the per-message `try` (only `JSONDecodeError`
  and `KeyError` are caught, lines 178-181). -/
  | uncaught (e : PyExc)

/-- One iteration of `async for message in websocket` with the per-message
`try`/`except`, src/server.py lines 156-181. `none` stands for a message
`json.loads` cannot decode. -/
def processMessage (raw : Option JValue) (clientId : String) (ws : Nat)
    (st : ServerState) (env : Env) : ServerState × List Effect × StepRes :=
  match raw with
  | none => (st, [.logError "Invalid JSON received"], .cont)
  | some data =>
    let r := dispatch data clientId ws st env
    let effs := Effect.logInfo "Received message" :: r.2.1
    match r.2.2 with
    | none => (r.1, effs, .cont)
    | some (.keyError k) => (r.1, effs ++ [.logError ("KeyError: " ++ k)], .cont)
    | some e => (r.1, effs, .uncaught e)

/-- The message loop: each inbound message comes with the environment in
force while it is handled. Stops early when an exception escapes the
per-message `try`. -/
def runLoop (msgs : List (Option JValue × Env)) (clientId : String) (ws : Nat)
    (st : ServerState) : ServerState × List Effect × Option PyExc :=
  match msgs with
  | [] => (st, [], none)
  | (m, env) :: rest =>
    let r := processMessage m clientId ws st env
    match r.2.2 with
    | .cont =>
      let r' := runLoop rest clientId ws r.1
      (r'.1, r.2.1 ++ r'.2.1, r'.2.2)
    | .uncaught e => (r.1, r.2.1, some e)

/-- How the inbound message stream ends when no exception cut it short. -/
inductive StreamEnd where
  /-- `async for` finishes normally (clean close). -/
  | closedOk
  /-- The channel raises `websockets.ConnectionClosed`. -/
  | closedErr

/-- How a `handle_client` invocation finishes. -/
inductive HandlerExit where
  /-- Returned normally. -/
  | normal
  /-- `except websockets.ConnectionClosed:` took the exit (line 183-184). -/
  | handledDisconnect
  /-- An exception other than `ConnectionClosed` propagated out. -/
  | died (e : PyExc)

/-- The welcome message of src/server.py line 155. -/
def welcomeMsg (clientId : String) : JValue :=
  .jobj [("message", .jstr "Connected to Dolphin Controller Server"),
         ("client_id", .jstr clientId)]

/-- The rejection message of src/server.py line 147. -/
def tooManyMsg : JValue := .jobj [("error", .jstr "Too many clients")]

/-- `handle_client(websocket)`, src/server.py lines 143-187. `freshId` is
the `str(uuid.uuid4())` drawn at line 151, `env0` the environment in force
for the sends outside the loop, `msgs` the inbound messages each with its
environment, and `streamEnd` how the stream ends if the loop is not cut
short. The `finally` at lines 185-187 runs on every path that follows
registration, including a propagating exception. -/
def handle_client (st : ServerState) (ws : Nat) (freshId : String)
    (msgs : List (Option JValue × Env)) (streamEnd : StreamEnd) (env0 : Env) :
    ServerState × List Effect × HandlerExit :=
  if MAX_CLIENTS ≤ st.connected_clients.length then
    -- lines 145-149: refuse, send the error, close, return (no registration,
    -- and no try/finally is active yet, so a failing send kills the handler).
    if env0.sendOk ws then
      (st, [.logError "Connection refused: Maximum number of clients reached.",
            .sent ws tooManyMsg, .closed ws], .normal)
    else
      (st, [.logError "Connection refused: Maximum number of clients reached."],
       .died .connectionClosed)
  else
    let st1 := { st with
      connected_clients := dictInsert st.connected_clients freshId ws }
    -- Inside `try:` from here on; the `finally` deregisters on every path.
    if env0.sendOk ws then
      let r := runLoop msgs freshId ws st1
      let exit : HandlerExit :=
        match r.2.2 with
        | some .connectionClosed => .handledDisconnect
        | some e => .died e
        | none =>
          match streamEnd with
          | .closedOk => .normal
          | .closedErr => .handledDisconnect
      ({ r.1 with connected_clients := deregister r.1.connected_clients freshId },
       [.logInfo "Client connected", .sent ws (welcomeMsg freshId)] ++ r.2.1,
       exit)
    else
      -- The welcome send at line 155 raised ConnectionClosed: caught at 183,
      -- then the finally deregisters.
      ({ st1 with connected_clients := deregister st1.connected_clients freshId },
       [.logInfo "Client connected"], .handledDisconnect)

/-- A benign environment: the held process is alive, the process scan finds
nothing, a launch attempt hits `FileNotFoundError` (the shipped
`DOLPHIN_PATH` placeholder does not exist), and every send succeeds. -/
def defaultEnv : Env where
  pollAlive := true
  scan := .ok false
  launch := .fileNotFound
  stopFails := false
  sendOk := fun _ => true

/-- Whether an effect is a websocket send to the given channel. -/
def isSentTo (e : Effect) (ch : Nat) : Bool :=
  match e with
  | .sent c _ => c == ch
  | _ => false

/-- Whether an effect is an `error(...)` log line. -/
def isErrLog (e : Effect) : Bool :=
  match e with
  | .logError _ => true
  | _ => false

/-! ### Basic dictionary lemmas -/

theorem lookupKey_mem {m : List (String × α)} {k : String} {v : α}
    (h : lookupKey m k = some v) : (k, v) ∈ m := by
  induction m with
  | nil => simp [lookupKey] at h
  | cons p rest ih =>
    by_cases hk : p.1 = k
    · simp only [lookupKey, hk, if_pos rfl] at h
      cases h
      cases p
      subst hk
      exact List.mem_cons_self _ _
    · simp only [lookupKey, hk, if_neg] at h
      exact List.mem_cons_of_mem _ (ih h)

theorem dictInsert_length (m : List (String × α)) (k : String) (v : α) :
    (dictInsert m k v).length = if hasKeyB m k then m.length else m.length + 1 := by
  unfold dictInsert
  by_cases h : hasKeyB m k <;> simp [h]

theorem deregister_length_le (reg : Registry) (id : String) :
    (deregister reg id).length ≤ reg.length := by
  unfold deregister
  by_cases h : hasKeyB reg id <;> simp [h]
  exact List.length_filter_le _ _

theorem register_length_le (reg : Registry) (id : String) (ch : Nat)
    (h : reg.length ≤ MAX_CLIENTS) :
    ((register reg id ch).1).length ≤ MAX_CLIENTS := by
  unfold register
  by_cases hfull : MAX_CLIENTS ≤ reg.length
  · simpa [hfull]
  · have hlt : reg.length < MAX_CLIENTS := Nat.lt_of_not_le hfull
    simp only [hfull, if_neg, ite_false]
    rw [dictInsert_length]
    by_cases hk : hasKeyB reg id
    · simpa [hk] using h
    · simpa [hk] using hlt

theorem applyOps_length_le (ops : List RegOp) (reg : Registry)
    (h : reg.length ≤ MAX_CLIENTS) :
    (applyOps reg ops).length ≤ MAX_CLIENTS := by
  induction ops generalizing reg with
  | nil => exact h
  | cons op rest ih =>
    refine ih _ ?_
    cases op with
    | reg id ch => exact register_length_le reg id ch h
    | dereg id => exact le_trans (deregister_length_le reg id) h

theorem deregister_not_mem (reg : Registry) (id : String)
    (h : hasKeyB reg id = false) : deregister reg id = reg := by
  simp [deregister, h]

theorem hasKeyB_deregister (reg : Registry) (id : String) :
    hasKeyB (deregister reg id) id = false := by
  unfold deregister
  by_cases h : hasKeyB reg id
  · simp only [h, if_pos]
    rw [hasKeyB, List.any_eq_false]
    intro p hp
    have := List.of_mem_filter hp
    simpa using this
  · simp [h]

theorem deregister_idem (reg : Registry) (id : String) :
    deregister (deregister reg id) id = deregister reg id :=
  deregister_not_mem _ _ (hasKeyB_deregister reg id)

theorem hasKeyB_eq_isSome_lookupKey (m : List (String × α)) (k : String) :
    hasKeyB m k = (lookupKey m k).isSome := by
  induction m with
  | nil => rfl
  | cons p rest ih =>
    by_cases h : p.1 = k
    · simp [hasKeyB, lookupKey, h]
    · simp [hasKeyB, lookupKey, h] at ih ⊢
      exact ih

theorem dictInsert_of_not_mem (m : List (String × α)) (k : String) (v : α)
    (h : hasKeyB m k = false) : dictInsert m k v = m ++ [(k, v)] := by
  simp [dictInsert, h]

theorem hasKeyB_dictInsert (m : List (String × α)) (k : String) (v : α) :
    hasKeyB (dictInsert m k v) k = true := by
  unfold dictInsert
  by_cases h : hasKeyB m k
  · simp only [h, if_pos]
    rw [hasKeyB, List.any_eq_true] at h ⊢
    obtain ⟨p, hp, hk⟩ := h
    refine ⟨(if p.1 = k then (p.1, v) else p), List.mem_map_of_mem _ hp, ?_⟩
    simp only [decide_eq_true_eq] at hk
    simp [hk]
  · simp only [h, if_neg, Bool.false_eq_true, not_false_iff, ite_false]
    simp [hasKeyB]

theorem hasKeyB_append (m : List (String × α)) (k k' : String) (v : α) :
    hasKeyB (m ++ [(k, v)]) k' = (hasKeyB m k' || k = k') := by
  simp [hasKeyB]

/-! ### Lemmas about process detection and broadcast -/

theorem is_dolphin_running_true (dp : Option Nat) (env : Env)
    (h : (is_dolphin_running dp env).1 = true) :
    (is_dolphin_running dp env).2.1 = dp ∧ (is_dolphin_running dp env).2.2 = [] := by
  cases dp with
  | some p =>
    by_cases hp : env.pollAlive
    · simp [is_dolphin_running, hp]
    · simp [is_dolphin_running, hp] at h
  | none =>
    cases hs : env.scan with
    | ok b => simp [is_dolphin_running, hs]
    | error u => simp [is_dolphin_running, hs] at h

theorem is_dolphin_running_false (dp : Option Nat) (env : Env)
    (h : (is_dolphin_running dp env).1 = false) :
    (is_dolphin_running dp env).2.1 = none := by
  cases dp with
  | some p =>
    by_cases hp : env.pollAlive
    · simp [is_dolphin_running, hp] at h
    · simp [is_dolphin_running, hp]
  | none =>
    cases hs : env.scan with
    | ok b => simp [is_dolphin_running, hs]
    | error u => simp [is_dolphin_running, hs]

theorem broadcastTo_all_ok (clients : Registry) (env : Env) (msg : JValue)
    (h : ∀ p ∈ clients, env.sendOk p.2 = true) :
    broadcastTo clients env msg
      = (clients.map (fun p => Effect.sent p.2 msg), none) := by
  induction clients with
  | nil => rfl
  | cons p rest ih =>
    have hp : env.sendOk p.2 = true := h p (List.mem_cons_self _ _)
    have hrest : ∀ q ∈ rest, env.sendOk q.2 = true :=
      fun q hq => h q (List.mem_cons_of_mem _ hq)
    simp [broadcastTo, hp, ih hrest]

theorem broadcastTo_fails_at (pre post : Registry) (bad : String × Nat)
    (env : Env) (msg : JValue)
    (hpre : ∀ p ∈ pre, env.sendOk p.2 = true)
    (hbad : env.sendOk bad.2 = false) :
    broadcastTo (pre ++ bad :: post) env msg
      = (pre.map (fun p => Effect.sent p.2 msg), some .connectionClosed) := by
  induction pre with
  | nil => simp [broadcastTo, hbad]
  | cons p rest ih =>
    have hp : env.sendOk p.2 = true := hpre p (List.mem_cons_self _ _)
    have hrest : ∀ q ∈ rest, env.sendOk q.2 = true :=
      fun q hq => hpre q (List.mem_cons_of_mem _ hq)
    simp [broadcastTo, hp, ih hrest]

/-! ### Lemmas about the input translation -/

theorem INPUT_MAP_target_inj :
    ∀ p ∈ INPUT_MAP, ∀ q ∈ INPUT_MAP, p.2 = q.2 → p.1 = q.1 := by decide

theorem lookupKey_INPUT_MAP_inj {a b t : String}
    (ha : lookupKey INPUT_MAP a = some t) (hb : lookupKey INPUT_MAP b = some t) :
    a = b :=
  INPUT_MAP_target_inj (a, t) (lookupKey_mem ha) (b, t) (lookupKey_mem hb) rfl

/-- The remapping loop with an explicit accumulator: when no pending input
key maps into the accumulator's keys and the input keys are distinct (as
they are for a Python dict), every `dictInsert` is an append, so the loop
computes a `filterMap`. -/
theorem translate_foldl (input : List (String × JValue))
    (acc : List (String × JValue))
    (hnd : (input.map Prod.fst).Nodup)
    (hacc : ∀ p ∈ input, ∀ t, lookupKey INPUT_MAP p.1 = some t →
      hasKeyB acc t = false) :
    input.foldl
        (fun acc p =>
          match lookupKey INPUT_MAP p.1 with
          | some t => dictInsert acc t p.2
          | none => acc)
        acc
      = acc ++ input.filterMap
          (fun p => (lookupKey INPUT_MAP p.1).map (fun t => (t, p.2))) := by
  induction input generalizing acc with
  | nil => simp
  | cons p rest ih =>
    rw [List.map_cons, List.nodup_cons] at hnd
    obtain ⟨hnotin, hndrest⟩ := hnd
    cases hl : lookupKey INPUT_MAP p.1 with
    | none =>
      simp only [List.foldl_cons, List.filterMap_cons, hl, Option.map_none']
      exact ih acc hndrest
        (fun q hq t ht => hacc q (List.mem_cons_of_mem _ hq) t ht)
    | some t =>
      have hfresh : hasKeyB acc t = false :=
        hacc p (List.mem_cons_self _ _) t hl
      simp only [List.foldl_cons, List.filterMap_cons, hl, Option.map_some']
      rw [dictInsert_of_not_mem _ _ _ hfresh]
      rw [ih (acc ++ [(t, p.2)]) hndrest ?_]
      · simp
      · intro q hq t' ht'
        rw [hasKeyB_append]
        have h1 : hasKeyB acc t' = false :=
          hacc q (List.mem_cons_of_mem _ hq) t' ht'
        have h2 : ¬ t = t' := by
          intro he
          subst he
          exact hnotin (by
            have : q.1 = p.1 := lookupKey_INPUT_MAP_inj ht' hl
            exact this ▸ List.mem_map_of_mem _ hq)
      -- combine
        simp [h1, h2]

/-- The keys produced by translating a dict with distinct keys are
distinct: the translation table is injective on its targets. -/
theorem translate_keys_nodup (input : List (String × JValue))
    (hnd : (input.map Prod.fst).Nodup) :
    (input.filterMap (fun p => lookupKey INPUT_MAP p.1)).Nodup := by
  induction input with
  | nil => simp
  | cons p rest ih =>
    rw [List.map_cons, List.nodup_cons] at hnd
    obtain ⟨hnotin, hndrest⟩ := hnd
    cases hl : lookupKey INPUT_MAP p.1 with
    | none => simpa [List.filterMap_cons, hl] using ih hndrest
    | some t =>
      simp only [List.filterMap_cons, hl, List.nodup_cons]
      refine ⟨?_, ih hndrest⟩
      intro hmem
      rw [List.mem_filterMap] at hmem
      obtain ⟨q, hq, hql⟩ := hmem
      have : q.1 = p.1 := lookupKey_INPUT_MAP_inj hql hl
      exact hnotin (this ▸ List.mem_map_of_mem _ hq)

/-! ### Claim theorems -/

/-- C1: a registration attempt is accepted and the fresh identity stored iff
the current number of registered sessions is strictly below `MAX_CLIENTS`;
a rejected attempt leaves the registry unchanged; and starting from any
registry within capacity, any sequence of register/deregister operations
keeps the size at most `MAX_CLIENTS`. -/
theorem register_capacity (reg : Registry) (freshId : String) (ch : Nat)
    (ops : List RegOp) (hle : reg.length ≤ MAX_CLIENTS) :
    ((register reg freshId ch).2 = true ↔ reg.length < MAX_CLIENTS)
    ∧ ((register reg freshId ch).2 = false → (register reg freshId ch).1 = reg)
    ∧ ((register reg freshId ch).2 = true →
        hasKeyB (register reg freshId ch).1 freshId = true)
    ∧ (hasKeyB reg freshId = false → (register reg freshId ch).2 = true →
        (register reg freshId ch).1 = reg ++ [(freshId, ch)])
    ∧ (applyOps reg ops).length ≤ MAX_CLIENTS := by
  by_cases hfull : MAX_CLIENTS ≤ reg.length
  · have h1 : register reg freshId ch = (reg, false) := by simp [register, hfull]
    refine ⟨?_, ?_, ?_, ?_, applyOps_length_le ops reg hle⟩ <;> rw [h1]
    · simp [Nat.not_lt.mpr hfull]
    · intro _
      rfl
    · intro hc
      simp at hc
    · intro _ hc
      simp at hc
  · have h1 : register reg freshId ch = (dictInsert reg freshId ch, true) := by
      simp [register, hfull]
    refine ⟨?_, ?_, ?_, ?_, applyOps_length_le ops reg hle⟩ <;> rw [h1]
    · simp [Nat.lt_of_not_le hfull]
    · intro hc
      simp at hc
    · intro _
      exact hasKeyB_dictInsert reg freshId ch
    · intro habs _
      exact dictInsert_of_not_mem reg freshId ch habs

/-- Witness for C1 at a concrete registry and operation sequence. -/
theorem register_capacity_witness :
    (applyOps [] [RegOp.reg "a" 1, RegOp.reg "b" 2, RegOp.reg "c" 3,
                  RegOp.reg "d" 4, RegOp.reg "e" 5, RegOp.dereg "a",
                  RegOp.reg "f" 6]).length ≤ MAX_CLIENTS :=
  (register_capacity [] "w" 7
    [RegOp.reg "a" 1, RegOp.reg "b" 2, RegOp.reg "c" 3,
     RegOp.reg "d" 4, RegOp.reg "e" 5, RegOp.dereg "a",
     RegOp.reg "f" 6] (by decide)).2.2.2.2

/-- C7: deregistering an absent identity is a no-op that raises nothing, and
deregistering twice has the same effect as deregistering once. -/
theorem deregister_idempotent (reg reg' : Registry) (id id' : String)
    (habs : hasKeyB reg id = false) :
    deregister reg id = reg
    ∧ deregister (deregister reg' id') id' = deregister reg' id' :=
  ⟨deregister_not_mem reg id habs, deregister_idem reg' id'⟩

/-- Witness for C7 at a concrete registry. -/
theorem deregister_idempotent_witness :
    deregister [("a", 1)] "b" = [("a", 1)]
    ∧ deregister (deregister [("a", 1), ("b", 2)] "a") "a"
        = deregister [("a", 1), ("b", 2)] "a" :=
  deregister_idempotent [("a", 1)] [("a", 1), ("b", 2)] "b" "a" (by decide)

/-- C8: when `is_dolphin_running()` reports true, `start_dolphin()` leaves
the whole server state (in particular `dolphin_process`) unchanged, emits
only the informational log line, launches nothing, and raises nothing. -/
theorem start_noop_when_running (st : ServerState) (env : Env)
    (hrun : (is_dolphin_running st.dolphin_process env).1 = true) :
    (start_dolphin st env).1 = st
    ∧ (start_dolphin st env).2.1 = [Effect.logInfo "Dolphin is already running."]
    ∧ (start_dolphin st env).2.2 = none := by
  obtain ⟨hdp, heff⟩ := is_dolphin_running_true _ _ hrun
  unfold start_dolphin
  simp only [hrun, ite_true, hdp, heff, List.nil_append]
  exact ⟨trivial, trivial, trivial⟩

/-- Witness for C8: a held, live process handle. -/
theorem start_noop_when_running_witness :
    (start_dolphin ⟨some 3, [("c", 0)]⟩ defaultEnv).1 = ⟨some 3, [("c", 0)]⟩
    ∧ (start_dolphin ⟨some 3, [("c", 0)]⟩ defaultEnv).2.1
        = [Effect.logInfo "Dolphin is already running."]
    ∧ (start_dolphin ⟨some 3, [("c", 0)]⟩ defaultEnv).2.2 = none :=
  start_noop_when_running ⟨some 3, [("c", 0)]⟩ defaultEnv rfl

/-- C10: with no handle held, a failing process-table scan makes
`is_dolphin_running` report false, so a subsequent `start_dolphin` proceeds
to attempt the launch (here: a successful one records a new handle). -/
theorem scan_error_reports_stopped (st : ServerState) (env : Env)
    (hdp : st.dolphin_process = none) (hscan : env.scan = .error ()) :
    (is_dolphin_running st.dolphin_process env).1 = false
    ∧ ∀ p : Nat, env.launch = .ok p →
        (start_dolphin st env).1.dolphin_process = some p
        ∧ Effect.launched p ∈ (start_dolphin st env).2.1 := by
  have hq : is_dolphin_running st.dolphin_process env
      = (false, none, [.logError "Error checking for Dolphin process"]) := by
    rw [hdp]
    simp [is_dolphin_running, hscan]
  constructor
  · rw [hq]
  · intro p hl
    unfold start_dolphin
    rw [hq]
    simp [hl, List.mem_cons]

/-- Witness for C10 at a concrete failing-scan environment. -/
theorem scan_error_reports_stopped_witness :
    (is_dolphin_running
        (⟨none, []⟩ : ServerState).dolphin_process
        ⟨true, .error (), .ok 9, false, fun _ => true⟩).1 = false
    ∧ ∀ p : Nat,
        (⟨true, .error (), .ok 9, false, fun _ => true⟩ : Env).launch = .ok p →
        (start_dolphin ⟨none, []⟩ ⟨true, .error (), .ok 9, false, fun _ => true⟩).1.dolphin_process
          = some p
        ∧ Effect.launched p
            ∈ (start_dolphin ⟨none, []⟩ ⟨true, .error (), .ok 9, false, fun _ => true⟩).2.1 :=
  scan_error_reports_stopped ⟨none, []⟩ ⟨true, .error (), .ok 9, false, fun _ => true⟩
    rfl rfl

/-- C3: whenever a session got registered (the capacity check passed), the
handler's final registry no longer carries the session's identity — on the
normal-close path, the connection-closed path, and the path where an
exception escapes the message loop alike, because the deregistration sits
in a `finally`. -/
theorem handle_client_always_deregisters (st : ServerState) (ws : Nat)
    (freshId : String) (msgs : List (Option JValue × Env))
    (streamEnd : StreamEnd) (env0 : Env)
    (hroom : st.connected_clients.length < MAX_CLIENTS) :
    hasKeyB
      (handle_client st ws freshId msgs streamEnd env0).1.connected_clients
      freshId = false := by
  have hnot : ¬ MAX_CLIENTS ≤ st.connected_clients.length := Nat.not_le.mpr hroom
  unfold handle_client
  by_cases hs : env0.sendOk ws
  · simp only [hnot, ite_false, hs, ite_true, if_neg]
    exact hasKeyB_deregister _ _
  · simp only [hnot, ite_false, hs, Bool.false_eq_true, if_neg]
    exact hasKeyB_deregister _ _

/-- Witness for C3: a concrete session whose loop dies on a malformed
message still ends deregistered. -/
theorem handle_client_always_deregisters_witness :
    hasKeyB
      (handle_client ⟨none, []⟩ 0 "cid"
          [(some (.jnum 5), defaultEnv)] .closedOk defaultEnv).1.connected_clients
      "cid" = false :=
  handle_client_always_deregisters ⟨none, []⟩ 0 "cid"
    [(some (.jnum 5), defaultEnv)] .closedOk defaultEnv (by decide)

/-- C4: `start_dolphin` with nothing running and a missing executable sends
the "Dolphin executable not found" notification to every registered
session (their channels being healthy), raises nothing out of the call,
and leaves `dolphin_process` Absent. -/
theorem start_file_not_found_broadcasts (st : ServerState) (env : Env)
    (hrun : (is_dolphin_running st.dolphin_process env).1 = false)
    (hlaunch : env.launch = .fileNotFound)
    (hsend : ∀ p ∈ st.connected_clients, env.sendOk p.2 = true) :
    (start_dolphin st env).1.dolphin_process = none
    ∧ (start_dolphin st env).2.2 = none
    ∧ ∀ p ∈ st.connected_clients,
        Effect.sent p.2 notFoundMsg ∈ (start_dolphin st env).2.1 := by
  have hdp : (is_dolphin_running st.dolphin_process env).2.1 = none :=
    is_dolphin_running_false _ _ hrun
  unfold start_dolphin
  simp only [hrun, Bool.false_eq_true, ite_false, hlaunch, hdp,
    broadcastTo_all_ok st.connected_clients env notFoundMsg hsend]
  refine ⟨trivial, trivial, ?_⟩
  intro p hp
  simp only [List.mem_append, List.mem_map]
  right
  exact ⟨p, hp, rfl⟩

/-- Witness for C4: two registered sessions both receive the notification. -/
theorem start_file_not_found_broadcasts_witness :
    (start_dolphin ⟨none, [("c1", 1), ("c2", 2)]⟩ defaultEnv).1.dolphin_process = none
    ∧ (start_dolphin ⟨none, [("c1", 1), ("c2", 2)]⟩ defaultEnv).2.2 = none
    ∧ ∀ p ∈ (⟨none, [("c1", 1), ("c2", 2)]⟩ : ServerState).connected_clients,
        Effect.sent p.2 notFoundMsg
          ∈ (start_dolphin ⟨none, [("c1", 1), ("c2", 2)]⟩ defaultEnv).2.1 :=
  start_file_not_found_broadcasts ⟨none, [("c1", 1), ("c2", 2)]⟩ defaultEnv
    rfl rfl (fun _ _ => rfl)

/-- C2: on an input dict (keys unique), the translation emits exactly the
entries `(INPUT_MAP[k], v)` for the input entries `(k, v)` whose key is in
the table, values unchanged and one output entry per such input key (the
output keys are distinct), and input keys outside the table contribute
nothing and cause no error. -/
theorem translate_table (input : List (String × JValue))
    (hnd : (input.map Prod.fst).Nodup) :
    translate input
      = input.filterMap
          (fun p => (lookupKey INPUT_MAP p.1).map (fun t => (t, p.2)))
    ∧ ((translate input).map Prod.fst).Nodup
    ∧ (∀ k v t, (k, v) ∈ input → lookupKey INPUT_MAP k = some t →
        (t, v) ∈ translate input)
    ∧ (∀ q ∈ translate input, ∃ p ∈ input,
        lookupKey INPUT_MAP p.1 = some q.1 ∧ q.2 = p.2) := by
  have heq : translate input
      = input.filterMap
          (fun p => (lookupKey INPUT_MAP p.1).map (fun t => (t, p.2))) := by
    have h := translate_foldl input [] hnd (fun p _ t _ => rfl)
    simpa [translate] using h
  refine ⟨heq, ?_, ?_, ?_⟩
  · rw [heq, List.map_filterMap]
    have hfun : (fun p : String × JValue =>
        ((lookupKey INPUT_MAP p.1).map (fun t => (t, p.2))).map Prod.fst)
        = fun p : String × JValue => lookupKey INPUT_MAP p.1 := by
      funext p
      cases lookupKey INPUT_MAP p.1 <;> rfl
    rw [hfun]
    exact translate_keys_nodup input hnd
  · intro k v t hmem hl
    rw [heq, List.mem_filterMap]
    exact ⟨(k, v), hmem, by simp [hl]⟩
  · intro q hq
    rw [heq, List.mem_filterMap] at hq
    obtain ⟨p, hp, hpq⟩ := hq
    cases hl : lookupKey INPUT_MAP p.1 with
    | none => simp [hl] at hpq
    | some t =>
      refine ⟨p, hp, ?_⟩
      simp only [hl, Option.map_some'] at hpq
      cases hpq
      exact ⟨hl, rfl⟩

/-- Witness for C2: the spec's own scenario, `{"A": true, "UNKNOWN": 1}`
translating to `{"a": true}`. -/
theorem translate_table_witness :
    translate [("A", JValue.jbool true), ("UNKNOWN", JValue.jnum 1)]
      = [("a", JValue.jbool true)] := by
  have h := (translate_table
    [("A", JValue.jbool true), ("UNKNOWN", JValue.jnum 1)] (by decide)).1
  rw [h]
  rfl

/-- C9: a `{"command": "status"}` message produces exactly one send, the
status reply to the requesting channel and to nobody else; it reads
"Stopped" when no handle is held and the platform scan finds no process,
and "Running" whenever `is_dolphin_running` reports true. -/
theorem status_reply_requester_only (st : ServerState) (env : Env)
    (cid : String) (ws : Nat) (hsend : env.sendOk ws = true) :
    (st.dolphin_process = none → env.scan = .ok false →
      processMessage (some (.jobj [("command", .jstr "status")])) cid ws st env
        = (st, [Effect.logInfo "Received message",
                Effect.sent ws (.jobj [("status", .jstr "Stopped")])], .cont))
    ∧ ((is_dolphin_running st.dolphin_process env).1 = true →
      processMessage (some (.jobj [("command", .jstr "status")])) cid ws st env
        = (st, [Effect.logInfo "Received message",
                Effect.sent ws (.jobj [("status", .jstr "Running")])], .cont)) := by
  constructor
  · intro hdp hscan
    obtain ⟨dp, cc⟩ := st
    simp only at hdp
    subst hdp
    simp [processMessage, dispatch, dispatchCommand, pyContains, pyGetItem,
      lookupKey, hasKeyB, isStr, is_dolphin_running, hscan, hsend]
  · intro hrun
    obtain ⟨hdp, heff⟩ := is_dolphin_running_true _ _ hrun
    simp [processMessage, dispatch, dispatchCommand, pyContains, pyGetItem,
      lookupKey, hasKeyB, isStr, hrun, hdp, heff, hsend]

/-- Witness for C9: a fresh server state answers "Stopped" to the requester
only, and a state holding a live handle answers "Running". -/
theorem status_reply_requester_only_witness :
    processMessage (some (.jobj [("command", .jstr "status")])) "c" 0
        ⟨none, [("c", 0), ("d", 1)]⟩ defaultEnv
      = (⟨none, [("c", 0), ("d", 1)]⟩,
         [Effect.logInfo "Received message",
          Effect.sent 0 (.jobj [("status", .jstr "Stopped")])], .cont)
    ∧ processMessage (some (.jobj [("command", .jstr "status")])) "c" 0
        ⟨some 3, [("c", 0), ("d", 1)]⟩ defaultEnv
      = (⟨some 3, [("c", 0), ("d", 1)]⟩,
         [Effect.logInfo "Received message",
          Effect.sent 0 (.jobj [("status", .jstr "Running")])], .cont) :=
  ⟨(status_reply_requester_only ⟨none, [("c", 0), ("d", 1)]⟩ defaultEnv
      "c" 0 rfl).1 rfl rfl,
   (status_reply_requester_only ⟨some 3, [("c", 0), ("d", 1)]⟩ defaultEnv
      "c" 0 rfl).2 rfl⟩

/-- C5 counterexample: with two registered sessions and the first one's
channel failing, the error broadcast after a FileNotFoundError delivers to
nobody — the second session's channel is healthy yet receives nothing, and
the send failure escapes the broadcast loop. -/
theorem broadcast_failure_not_isolated :
    (("id2", 2) ∈ (⟨none, [("id1", 1), ("id2", 2)]⟩ : ServerState).connected_clients)
    ∧ (⟨true, .ok false, .fileNotFound, false, fun ch => ch == 2⟩ : Env).sendOk 2 = true
    ∧ ((start_dolphin ⟨none, [("id1", 1), ("id2", 2)]⟩
          ⟨true, .ok false, .fileNotFound, false, fun ch => ch == 2⟩).2.1.any
        (fun e => isSentTo e 2)) = false
    ∧ (start_dolphin ⟨none, [("id1", 1), ("id2", 2)]⟩
          ⟨true, .ok false, .fileNotFound, false, fun ch => ch == 2⟩).2.2
        = some .connectionClosed :=
  ⟨by simp, rfl, rfl, rfl⟩

/-- C5 amended: the broadcast loop walks the registry in registration
order; when every send succeeds, every registered session receives the
message, but a failing send stops the loop — sessions before the failing
one have received the message, sessions after it receive nothing, and the
send error escapes to the caller. -/
theorem broadcast_sequential (clients pre post : Registry) (bad : String × Nat)
    (env : Env) (msg : JValue) :
    ((∀ p ∈ clients, env.sendOk p.2 = true) →
      broadcastTo clients env msg
        = (clients.map (fun p => Effect.sent p.2 msg), none))
    ∧ (clients = pre ++ bad :: post →
       (∀ p ∈ pre, env.sendOk p.2 = true) →
       env.sendOk bad.2 = false →
       broadcastTo clients env msg
         = (pre.map (fun p => Effect.sent p.2 msg), some .connectionClosed)) := by
  constructor
  · intro hall
    exact broadcastTo_all_ok clients env msg hall
  · intro hsplit hpre hbad
    rw [hsplit]
    exact broadcastTo_fails_at pre post bad env msg hpre hbad

/-- Witness for the amended C5: both the all-succeed case and the
fail-in-the-middle case at concrete registries. -/
theorem broadcast_sequential_witness :
    (broadcastTo [("id1", 1), ("id2", 2)] defaultEnv notFoundMsg
      = ([Effect.sent 1 notFoundMsg, Effect.sent 2 notFoundMsg], none))
    ∧ (broadcastTo [("id1", 1), ("id2", 2), ("id3", 3)]
          ⟨true, .ok false, .fileNotFound, false, fun ch => ch != 2⟩ notFoundMsg
      = ([Effect.sent 1 notFoundMsg], some .connectionClosed)) :=
  ⟨(broadcast_sequential [("id1", 1), ("id2", 2)] [] [] ("", 0) defaultEnv
      notFoundMsg).1 (fun _ _ => rfl),
   (broadcast_sequential [("id1", 1), ("id2", 2), ("id3", 3)] [("id1", 1)]
      [("id3", 3)] ("id2", 2)
      ⟨true, .ok false, .fileNotFound, false, fun ch => ch != 2⟩ notFoundMsg).2
     rfl (by simp) rfl⟩

theorem lookupKey_eq_none_of_hasKeyB (m : List (String × α)) (k : String)
    (h : hasKeyB m k = false) : lookupKey m k = none := by
  have := hasKeyB_eq_isSome_lookupKey m k
  rw [h] at this
  cases hl : lookupKey m k
  · rfl
  · rw [hl] at this
    simp at this

theorem hasKeyB_of_lookupKey (m : List (String × α)) (k : String) (v : α)
    (h : lookupKey m k = some v) : hasKeyB m k = true := by
  rw [hasKeyB_eq_isSome_lookupKey, h]
  rfl

/-- C6 counterexample: the valid-JSON message `5` is malformed for the
protocol, yet `"type" in 5` raises an uncaught `TypeError`: the message
loop does not continue, the handler dies (so the connection is torn down)
— only the logged-and-continue behaviour holds for decode and key errors.
Moreover an unrecognized command draws no warning log at all. -/
theorem malformed_message_kills_handler :
    processMessage (some (.jnum 5)) "cid" 0 ⟨none, []⟩ defaultEnv
      = (⟨none, []⟩, [Effect.logInfo "Received message"], .uncaught .typeError)
    ∧ (handle_client ⟨none, []⟩ 0 "cid"
          [(some (.jnum 5), defaultEnv)] .closedOk defaultEnv).2.2
        = .died .typeError
    ∧ ((processMessage (some (.jobj [("command", .jstr "bogus")])) "cid" 0
          ⟨none, []⟩ defaultEnv).2.1.any isErrLog) = false :=
  ⟨rfl, rfl, rfl⟩

/-- C6 amended: undecodable payloads are logged and the loop continues; a
missing `input` field is a caught `KeyError`, logged, loop continues;
object messages with a missing or unknown discriminator or an unknown
command value, and string or array payloads in which the `in` test finds
neither "type" (substring / element membership) nor "command", are ignored
without any warning log and the loop continues; but a payload decoding to
a number, boolean or null (where `in` raises), and a string or array
payload in which the `in` test finds "type" (so the subscript raises),
raise an uncaught `TypeError` that terminates the handler. -/
theorem malformed_message_handling (fields : List (String × JValue))
    (cv tv : JValue) (cid : String) (ws : Nat) (st : ServerState) (env : Env)
    (n : Int) (b : Bool) (s : String) (elems : List JValue) :
    (processMessage none cid ws st env
      = (st, [Effect.logError "Invalid JSON received"], .cont))
    ∧ (hasKeyB fields "type" = false → hasKeyB fields "command" = false →
        processMessage (some (.jobj fields)) cid ws st env
          = (st, [Effect.logInfo "Received message"], .cont))
    ∧ (hasKeyB fields "type" = false →
        lookupKey fields "command" = some cv →
        isStr cv "start_dolphin" = false → isStr cv "stop_dolphin" = false →
        isStr cv "status" = false →
        processMessage (some (.jobj fields)) cid ws st env
          = (st, [Effect.logInfo "Received message"], .cont))
    ∧ (lookupKey fields "type" = some tv →
        isStr tv "controller_input" = false →
        hasKeyB fields "command" = false →
        processMessage (some (.jobj fields)) cid ws st env
          = (st, [Effect.logInfo "Received message"], .cont))
    ∧ (lookupKey fields "type" = some (.jstr "controller_input") →
        hasKeyB fields "input" = false →
        processMessage (some (.jobj fields)) cid ws st env
          = (st, [Effect.logInfo "Received message",
                  Effect.logError "KeyError: input"], .cont))
    ∧ (processMessage (some .jnull) cid ws st env
        = (st, [Effect.logInfo "Received message"], .uncaught .typeError))
    ∧ (processMessage (some (.jbool b)) cid ws st env
        = (st, [Effect.logInfo "Received message"], .uncaught .typeError))
    ∧ (processMessage (some (.jnum n)) cid ws st env
        = (st, [Effect.logInfo "Received message"], .uncaught .typeError))
    ∧ (listSubstr "type".toList s.toList = false →
       listSubstr "command".toList s.toList = false →
        processMessage (some (.jstr s)) cid ws st env
          = (st, [Effect.logInfo "Received message"], .cont))
    ∧ (listSubstr "type".toList s.toList = true →
        processMessage (some (.jstr s)) cid ws st env
          = (st, [Effect.logInfo "Received message"], .uncaught .typeError))
    ∧ (elems.any (fun v => isStr v "type") = false →
       elems.any (fun v => isStr v "command") = false →
        processMessage (some (.jarr elems)) cid ws st env
          = (st, [Effect.logInfo "Received message"], .cont))
    ∧ (elems.any (fun v => isStr v "type") = true →
        processMessage (some (.jarr elems)) cid ws st env
          = (st, [Effect.logInfo "Received message"], .uncaught .typeError)) := by
  refine ⟨rfl, ?_, ?_, ?_, ?_, rfl, rfl, rfl, ?_, ?_, ?_, ?_⟩
  · intro htype hcmd
    simp [processMessage, dispatch, dispatchCommand, pyContains, htype, hcmd]
  · intro htype hcv h1 h2 h3
    have hcmd : hasKeyB fields "command" = true :=
      hasKeyB_of_lookupKey fields "command" cv hcv
    simp [processMessage, dispatch, dispatchCommand, pyContains, pyGetItem,
      htype, hcmd, hcv, h1, h2, h3]
  · intro htype htv hcmd
    have htypeK : hasKeyB fields "type" = true :=
      hasKeyB_of_lookupKey fields "type" tv htype
    simp [processMessage, dispatch, dispatchCommand, pyContains, pyGetItem,
      htypeK, htype, htv, hcmd]
  · intro htype hinput
    have htypeK : hasKeyB fields "type" = true :=
      hasKeyB_of_lookupKey fields "type" _ htype
    have hinputL : lookupKey fields "input" = none :=
      lookupKey_eq_none_of_hasKeyB fields "input" hinput
    simp [processMessage, dispatch, dispatchCommand, pyContains, pyGetItem,
      htypeK, htype, hinputL, isStr]
  · intro h1 h2
    have h1' : listSubstr ['t', 'y', 'p', 'e'] s.data = false := h1
    have h2' : listSubstr ['c', 'o', 'm', 'm', 'a', 'n', 'd'] s.data = false := h2
    simp [processMessage, dispatch, dispatchCommand, pyContains, h1', h2']
  · intro h1
    have h1' : listSubstr ['t', 'y', 'p', 'e'] s.data = true := h1
    simp [processMessage, dispatch, pyContains, pyGetItem, h1']
  · intro h1 h2
    simp [processMessage, dispatch, dispatchCommand, pyContains, h1, h2]
  · intro h1
    simp [processMessage, dispatch, pyContains, pyGetItem, h1]

/-- Witness for the amended C6 across its cases: an undecodable payload, an
unrecognized object message, an unknown command, an unknown discriminator
value, a controller-input message missing its `input` field, a null
payload killing the handler, benign and killing string payloads, and
benign and killing array payloads. -/
theorem malformed_message_handling_witness :
    (processMessage none "c" 0 ⟨none, []⟩ defaultEnv
      = (⟨none, []⟩, [Effect.logError "Invalid JSON received"], .cont))
    ∧ (processMessage (some (.jobj [("foo", .jnull)])) "c" 0 ⟨none, []⟩ defaultEnv
      = (⟨none, []⟩, [Effect.logInfo "Received message"], .cont))
    ∧ (processMessage (some (.jobj [("command", .jstr "restart")])) "c" 0
          ⟨none, []⟩ defaultEnv
      = (⟨none, []⟩, [Effect.logInfo "Received message"], .cont))
    ∧ (processMessage (some (.jobj [("type", .jstr "bogus")])) "c" 0
          ⟨none, []⟩ defaultEnv
      = (⟨none, []⟩, [Effect.logInfo "Received message"], .cont))
    ∧ (processMessage
          (some (.jobj [("type", .jstr "controller_input")])) "c" 0
          ⟨none, []⟩ defaultEnv
      = (⟨none, []⟩, [Effect.logInfo "Received message",
                      Effect.logError "KeyError: input"], .cont))
    ∧ (processMessage (some .jnull) "c" 0 ⟨none, []⟩ defaultEnv
      = (⟨none, []⟩, [Effect.logInfo "Received message"], .uncaught .typeError))
    ∧ (processMessage (some (.jstr "hello")) "c" 0 ⟨none, []⟩ defaultEnv
      = (⟨none, []⟩, [Effect.logInfo "Received message"], .cont))
    ∧ (processMessage (some (.jstr "prototype")) "c" 0 ⟨none, []⟩ defaultEnv
      = (⟨none, []⟩, [Effect.logInfo "Received message"], .uncaught .typeError))
    ∧ (processMessage (some (.jarr [.jnum 1, .jnum 2])) "c" 0 ⟨none, []⟩ defaultEnv
      = (⟨none, []⟩, [Effect.logInfo "Received message"], .cont))
    ∧ (processMessage (some (.jarr [.jstr "type"])) "c" 0 ⟨none, []⟩ defaultEnv
      = (⟨none, []⟩, [Effect.logInfo "Received message"], .uncaught .typeError)) :=
  ⟨(malformed_message_handling [] .jnull .jnull "c" 0 ⟨none, []⟩
      defaultEnv 0 false "" []).1,
   (malformed_message_handling [("foo", .jnull)] .jnull .jnull "c" 0 ⟨none, []⟩
      defaultEnv 0 false "" []).2.1 rfl rfl,
   (malformed_message_handling [("command", .jstr "restart")]
      (.jstr "restart") .jnull "c" 0 ⟨none, []⟩ defaultEnv 0 false "" []).2.2.1
      rfl rfl rfl rfl rfl,
   (malformed_message_handling [("type", .jstr "bogus")] .jnull
      (.jstr "bogus") "c" 0 ⟨none, []⟩ defaultEnv 0 false "" []).2.2.2.1
      rfl rfl rfl,
   (malformed_message_handling [("type", .jstr "controller_input")] .jnull
      .jnull "c" 0 ⟨none, []⟩ defaultEnv 0 false "" []).2.2.2.2.1 rfl rfl,
   (malformed_message_handling [] .jnull .jnull "c" 0 ⟨none, []⟩
      defaultEnv 0 false "" []).2.2.2.2.2.1,
   (malformed_message_handling [] .jnull .jnull "c" 0 ⟨none, []⟩
      defaultEnv 0 false "hello" []).2.2.2.2.2.2.2.2.1 rfl rfl,
   (malformed_message_handling [] .jnull .jnull "c" 0 ⟨none, []⟩
      defaultEnv 0 false "prototype" []).2.2.2.2.2.2.2.2.2.1 rfl,
   (malformed_message_handling [] .jnull .jnull "c" 0 ⟨none, []⟩
      defaultEnv 0 false "" [.jnum 1, .jnum 2]).2.2.2.2.2.2.2.2.2.2.1 rfl rfl,
   (malformed_message_handling [] .jnull .jnull "c" 0 ⟨none, []⟩
      defaultEnv 0 false "" [.jstr "type"]).2.2.2.2.2.2.2.2.2.2.2 rfl⟩

end GCServer
